import Mathlib

/-!
Verification of the inference-and-action core of the pymdp active-inference
demo (`examples/agent_demo.ipynb`).  The likelihood, transition and
preference tensors are translated from the notebook.  The core routines
(state inference, expected free energy, policy selection, the agent cycle)
do not ship as visible source; they are modelled from the specification.
All arithmetic is over the exact reals; the numeric log floor 1e-16
demanded by the specification is modelled exactly.
-/

namespace Pymdp

noncomputable section

/-! ## TensorOps: numerically stable primitives -/

/-- Modelled from the spec: the numeric floor applied to a probability
before taking a logarithm (spec section 4.4 and the error-handling design:
"every log must be floored (e.g. at 1e-16)"). -/
def epsFloor : ℝ := 1e-16

/-- Modelled from the spec: log with floor.  `slog x = log (max x 1e-16)`,
so that structurally-zero probabilities do not produce `-inf`. -/
def slog (x : ℝ) : ℝ := Real.log (max x epsFloor)

/-- Modelled from the spec: softmax over a finite vector,
`softmaxFn v i = exp (v i) / sum_j exp (v j)`. -/
def softmaxFn {n : ℕ} (v : Fin n → ℝ) : Fin n → ℝ :=
  fun i => Real.exp (v i) / ∑ j, Real.exp (v j)

/-- Modelled from the spec: Shannon entropy of a categorical over two
states, with the floored log used throughout the core. -/
def entropyBelief (q : Fin 2 → ℝ) : ℝ := -∑ s, q s * slog (q s)

/-- Modelled from the spec: categorical sampling by inverse-CDF scan of an
explicitly injected random draw `u`.  Walks the probability list, returning
the first index whose cumulative mass exceeds `u`; the last index is the
fallback, so the result is always a valid index of a nonempty list. -/
def sampleCat : List ℝ → ℝ → ℕ
  | [], _ => 0
  | [_], _ => 0
  | x :: y :: l, u => if u < x then 0 else sampleCat (y :: l) (u - x) + 1

/-! ## The reference generative model (translated from the notebook)

Hidden state factors: `GAME_STATE` (`HIGH_REW = 0`, `LOW_REW = 1`) and
`PLAYING_VS_SAMPLING` (`START = 0`, `PLAYING = 1`, `SAMPLING = 2`).
Observation modalities: `GAME_STATE_OBS` (`HIGH_REW_EVIDENCE = 0`,
`LOW_REW_EVIDENCE = 1`, `NO_EVIDENCE = 2`), `GAME_OUTCOME`
(`REWARD = 0`, `PUN = 1`, `NEUTRAL = 2`), `ACTION_SELF_OBS`
(`START_O = 0`, `PLAY_O = 1`, `SAMPLE_O = 2`). -/

/-- `softmax(np.array([1.0, 0]))` from the notebook. -/
def HIGH_REW_MAPPING : Fin 2 → ℝ := softmaxFn ![1, 0]

/-- `softmax(np.array([0.0, 1.0]))` from the notebook. -/
def LOW_REW_MAPPING : Fin 2 → ℝ := softmaxFn ![0, 1]

/-- `A[0]`: `GAME_STATE_OBS` likelihood.  `NO_EVIDENCE` with probability 1
in the `START` and `PLAYING` states; in the `SAMPLING` state,
evidence observations with probabilities 0.8 / 0.2 matched to the game
state.  Index order `A[0][obs, game_state, playing_vs_sampling]`. -/
def A0ref (o : Fin 3) (s0 : Fin 2) (s1 : Fin 3) : ℝ :=
  if s1 = 2 then
    (if o = 0 then (if s0 = 0 then 0.8 else 0.2)
     else if o = 1 then (if s0 = 0 then 0.2 else 0.8)
     else 0)
  else (if o = 2 then 1 else 0)

/-- `A[1]`: `GAME_OUTCOME` likelihood.  `NEUTRAL` with probability 1 in
the `START` and `SAMPLING` states; in the `PLAYING` state, `REWARD` and
`PUN` according to `HIGH_REW_MAPPING` / `LOW_REW_MAPPING`. -/
def A1ref (o : Fin 3) (s0 : Fin 2) (s1 : Fin 3) : ℝ :=
  if s1 = 1 then
    (if o = 0 then (if s0 = 0 then HIGH_REW_MAPPING 0 else LOW_REW_MAPPING 0)
     else if o = 1 then (if s0 = 0 then HIGH_REW_MAPPING 1 else LOW_REW_MAPPING 1)
     else 0)
  else (if o = 2 then 1 else 0)

/-- `A[2]`: `ACTION_SELF_OBS` likelihood, the identity mapping from the
`PLAYING_VS_SAMPLING` state to its self-observation. -/
def A2ref (o : Fin 3) (_s0 : Fin 2) (s1 : Fin 3) : ℝ :=
  if o = s1 then 1 else 0

/-- The stacked likelihood collection `A`. -/
def Aref : Fin 3 → Fin 3 → Fin 2 → Fin 3 → ℝ :=
  fun m => if m = 0 then A0ref else if m = 1 then A1ref else A2ref

/-- `p_stoch = 0.0` in the notebook. -/
def pStoch : ℝ := 0.0

/-- `B[0]`: transitions of the uncontrollable `GAME_STATE` factor under
the sole `NULL_ACTION`; each state maps to itself with probability
`1 - p_stoch` and flips with probability `p_stoch`. -/
def B0ref (sNext s : Fin 2) (_a : Fin 1) : ℝ :=
  if sNext = s then 1 - pStoch else pStoch

/-- `B[1]`: transitions of the controllable `PLAYING_VS_SAMPLING` factor:
the next state equals the chosen action index with probability 1,
regardless of the previous state. -/
def B1ref (sNext : Fin 3) (_s : Fin 3) (a : Fin 3) : ℝ :=
  if sNext = a then 1 else 0

/-- `C[0]`: zero preferences over `GAME_STATE_OBS`. -/
def C0ref : Fin 3 → ℝ := fun _ => 0

/-- `C[1]`: log preferences over `GAME_OUTCOME`: `REWARD` at `1.0`,
`PUN` at `-1.0`, `NEUTRAL` at `0.0`. -/
def C1ref : Fin 3 → ℝ := ![1.0, -1.0, 0.0]

/-- `C[2]`: zero preferences over `ACTION_SELF_OBS`. -/
def C2ref : Fin 3 → ℝ := fun _ => 0

/-- The stacked preference collection `C`. -/
def Cref : Fin 3 → Fin 3 → ℝ :=
  fun m => if m = 0 then C0ref else if m = 1 then C1ref else C2ref

/-- Prior over `GAME_STATE` in the reference scenario: uniform. -/
def D0ref : Fin 2 → ℝ := ![1/2, 1/2]

/-- Prior over `PLAYING_VS_SAMPLING` in the reference scenario: one-hot on
`START`. -/
def D1ref : Fin 3 → ℝ := ![1, 0, 0]

/-- The observation at time 0 in the notebook:
`(NO_EVIDENCE, NEUTRAL, START_O) = (2, 2, 0)`. -/
def obsT0 : Fin 3 → Fin 3 := fun m => if m = 0 then 2 else if m = 1 then 2 else 0

/-- The observation after sampling with the true state `HIGH_REW`:
`(HIGH_REW_EVIDENCE, NEUTRAL, SAMPLE_O) = (0, 2, 2)`. -/
def obsT1 : Fin 3 → Fin 3 := fun m => if m = 0 then 0 else if m = 1 then 2 else 2

/-! ## StateInference (modelled from the spec, section 4.2)

Mean-field variational fixed point.  A sweep updates each factor in
ascending order: the score of a state is the expected floored
log-likelihood of the observed outcomes under the current estimates of the
other factor, plus the floored log of the predictive; the new estimate is
the softmax (exponentiate-and-normalize) of the scores. -/

/-- Modelled from the spec: fixed-point score for factor 0 (`GAME_STATE`). -/
def score0 (o : Fin 3 → Fin 3) (pred0 : Fin 2 → ℝ) (q1 : Fin 3 → ℝ) (s0 : Fin 2) : ℝ :=
  (∑ m : Fin 3, ∑ s1 : Fin 3, q1 s1 * slog (Aref m (o m) s0 s1)) + slog (pred0 s0)

/-- Modelled from the spec: fixed-point update for factor 0. -/
def update0 (o : Fin 3 → Fin 3) (pred0 : Fin 2 → ℝ) (q1 : Fin 3 → ℝ) : Fin 2 → ℝ :=
  softmaxFn (score0 o pred0 q1)

/-- Modelled from the spec: fixed-point score for factor 1
(`PLAYING_VS_SAMPLING`). -/
def score1 (o : Fin 3 → Fin 3) (pred1 : Fin 3 → ℝ) (q0 : Fin 2 → ℝ) (s1 : Fin 3) : ℝ :=
  (∑ m : Fin 3, ∑ s0 : Fin 2, q0 s0 * slog (Aref m (o m) s0 s1)) + slog (pred1 s1)

/-- Modelled from the spec: fixed-point update for factor 1. -/
def update1 (o : Fin 3 → Fin 3) (pred1 : Fin 3 → ℝ) (q0 : Fin 2 → ℝ) : Fin 3 → ℝ :=
  softmaxFn (score1 o pred1 q0)

/-- Modelled from the spec: one fixed-point sweep over the factors in
ascending order; factor 1 sees the already-updated factor-0 estimate. -/
def sweep (o : Fin 3 → Fin 3) (pred0 : Fin 2 → ℝ) (pred1 : Fin 3 → ℝ)
    (q : (Fin 2 → ℝ) × (Fin 3 → ℝ)) : (Fin 2 → ℝ) × (Fin 3 → ℝ) :=
  let q0n := update0 o pred0 q.2
  (q0n, update1 o pred1 q0n)

/-- Modelled from the spec: `infer_states`.  Estimates are initialized to
the predictive beliefs and `n` fixed-point sweeps are run (the iteration
budget; the tolerance-based early exit returns an earlier sweep of the
same sequence). -/
def inferStates (o : Fin 3 → Fin 3) (pred0 : Fin 2 → ℝ) (pred1 : Fin 3 → ℝ)
    (n : ℕ) : (Fin 2 → ℝ) × (Fin 3 → ℝ) :=
  (sweep o pred0 pred1)^[n] (pred0, pred1)

/-- The spec default iteration budget for the fixed point. -/
def inferIters : ℕ := 10

/-- The stationary factor-1 estimate reached by the sweeps at time 0:
one-hot on `START` up to the mass `epsFloor ^ 3` that the log floor leaves
on each structurally-impossible state. -/
def q1Star : Fin 3 → ℝ :=
  fun s1 => (if s1 = 0 then 1 else epsFloor ^ 3) / (1 + 2 * epsFloor ^ 3)

/-! ## ExpectedFreeEnergyEvaluator (modelled from the spec, section 4.4)

The demo agent plans with the default horizon of one step, so a policy is
one action of the controllable factor.  The roll-forward applies the
transitions, predicts the observation distribution per modality, and
scores the policy by pragmatic value (negative expected log-preference)
plus epistemic value (negative expected information gain, an expected KL
divergence between the state posterior given each possible observation
and the predictive state belief). -/

/-- Modelled from the spec: one-step predictive belief of factor 0 under
the sole `NULL_ACTION`. -/
def predB0 (q0 : Fin 2 → ℝ) (sNext : Fin 2) : ℝ :=
  ∑ s, B0ref sNext s 0 * q0 s

/-- Modelled from the spec: one-step predictive belief of factor 1 under
action `a`. -/
def predB1 (a : Fin 3) (q1 : Fin 3 → ℝ) (sNext : Fin 3) : ℝ :=
  ∑ s, B1ref sNext s a * q1 s

/-- Modelled from the spec: the mean-field joint predictive state belief,
the outer product of the per-factor predictive beliefs. -/
def qjoint (p0 : Fin 2 → ℝ) (p1 : Fin 3 → ℝ) (s0 : Fin 2) (s1 : Fin 3) : ℝ :=
  p0 s0 * p1 s1

/-- Modelled from the spec: predictive observation belief of modality `m`,
the likelihood tensor contracted against the joint predictive. -/
def qobs (p0 : Fin 2 → ℝ) (p1 : Fin 3 → ℝ) (m : Fin 3) (o : Fin 3) : ℝ :=
  ∑ s0, ∑ s1, Aref m o s0 s1 * qjoint p0 p1 s0 s1

/-- Modelled from the spec: posterior over joint states given that
modality `m` would emit outcome `o` (Bayes rule on the predictive). -/
def postGiven (p0 : Fin 2 → ℝ) (p1 : Fin 3 → ℝ) (m o : Fin 3) (s0 : Fin 2) (s1 : Fin 3) : ℝ :=
  Aref m o s0 s1 * qjoint p0 p1 s0 s1 / qobs p0 p1 m o

/-- Modelled from the spec: KL divergence from the predictive joint to the
posterior given outcome `o` of modality `m`, with floored logs. -/
def klGain (p0 : Fin 2 → ℝ) (p1 : Fin 3 → ℝ) (m o : Fin 3) : ℝ :=
  ∑ s0, ∑ s1, postGiven p0 p1 m o s0 s1 *
    (slog (postGiven p0 p1 m o s0 s1) - slog (qjoint p0 p1 s0 s1))

/-- Modelled from the spec: pragmatic value of modality `m`, the negative
expected log-preference of the predicted outcomes. -/
def pragmatic (p0 : Fin 2 → ℝ) (p1 : Fin 3 → ℝ) (m : Fin 3) : ℝ :=
  -∑ o, qobs p0 p1 m o * Cref m o

/-- Modelled from the spec: epistemic value of modality `m`, the negative
expected information gain about the hidden states. -/
def epistemic (p0 : Fin 2 → ℝ) (p1 : Fin 3 → ℝ) (m : Fin 3) : ℝ :=
  -∑ o, qobs p0 p1 m o * klGain p0 p1 m o

/-- Modelled from the spec: per-step expected free energy, summed over
modalities (pragmatic plus epistemic). -/
def efeStep (p0 : Fin 2 → ℝ) (p1 : Fin 3 → ℝ) : ℝ :=
  ∑ m, (pragmatic p0 p1 m + epistemic p0 p1 m)

/-- Modelled from the spec: expected free energy of the one-step policy
`a` evaluated from the current beliefs. -/
def efePolicy (q0 : Fin 2 → ℝ) (q1 : Fin 3 → ℝ) (a : Fin 3) : ℝ :=
  efeStep (predB0 q0) (predB1 a q1)

/-- Modelled from the spec: the policy posterior,
`softmax (-gamma * EFE)`. -/
def policyPosterior (gamma : ℝ) (efe : Fin 3 → ℝ) : Fin 3 → ℝ :=
  softmaxFn (fun i => -gamma * efe i)

/-! ## GenerativeModel construction (modelled from the spec, section 4.1) -/

/-- Modelled from the spec: the A-tensor normalization invariant, each
observation-axis slice sums to 1 within tolerance 1e-6. -/
def aNormalized (A : Fin 3 → Fin 3 → Fin 2 → Fin 3 → ℝ) : Prop :=
  ∀ m s0 s1, |(∑ o, A m o s0 s1) - 1| ≤ 1e-6

/-- Modelled from the spec: the B-tensor normalization invariant, each
next-state slice sums to 1 within tolerance 1e-6. -/
def bNormalized (B0 : Fin 2 → Fin 2 → Fin 1 → ℝ) (B1 : Fin 3 → Fin 3 → Fin 3 → ℝ) : Prop :=
  (∀ s a, |(∑ sn, B0 sn s a) - 1| ≤ 1e-6) ∧ (∀ s a, |(∑ sn, B1 sn s a) - 1| ≤ 1e-6)

/-- Modelled from the spec: construction-time error taxonomy of the
generative model. -/
inductive ModelError where
  | ShapeMismatchError : ModelError
  | NotNormalizedError : ModelError
deriving DecidableEq

/-- Modelled from the spec: the immutable validated generative model
container (shapes are enforced by the types, so only normalization can
fail at construction). -/
structure GenModel where
  A : Fin 3 → Fin 3 → Fin 2 → Fin 3 → ℝ
  B0 : Fin 2 → Fin 2 → Fin 1 → ℝ
  B1 : Fin 3 → Fin 3 → Fin 3 → ℝ
  C : Fin 3 → Fin 3 → ℝ
  D0 : Fin 2 → ℝ
  D1 : Fin 3 → ℝ

open Classical in
/-- Modelled from the spec: the validating constructor of the
`GenerativeModel`; rejects tensors whose slices are not normalized with
`NotNormalizedError`, and otherwise returns the immutable container. -/
def mkGenModel (A : Fin 3 → Fin 3 → Fin 2 → Fin 3 → ℝ)
    (B0 : Fin 2 → Fin 2 → Fin 1 → ℝ) (B1 : Fin 3 → Fin 3 → Fin 3 → ℝ)
    (C : Fin 3 → Fin 3 → ℝ) (D0 : Fin 2 → ℝ) (D1 : Fin 3 → ℝ) :
    Except ModelError GenModel :=
  if aNormalized A ∧ bNormalized B0 B1 then .ok ⟨A, B0, B1, C, D0, D1⟩
  else .error .NotNormalizedError

/-! ## Agent orchestration (modelled from the spec, section 4.6)

A state machine cycling `AwaitingObservation -> BeliefUpdated ->
PolicyEvaluated -> AwaitingObservation`; out-of-order calls and invalid
observation vectors fail synchronously, leaving the agent unchanged. -/

/-- Modelled from the spec: the cycle state of the agent. -/
inductive Phase where
  | AwaitingObservation : Phase
  | BeliefUpdated : Phase
  | PolicyEvaluated : Phase
deriving DecidableEq

/-- Modelled from the spec: caller-usage errors of the runtime API. -/
inductive AgentError where
  | InvalidObservationError : AgentError
  | InvalidStateTransitionError : AgentError
deriving DecidableEq

/-- Modelled from the spec: the full agent state: cycle phase, the stored
belief per factor, and the last sampled action (used to roll the
predictive belief forward; `none` before the first action). -/
structure AgentState where
  phase : Phase
  q0 : Fin 2 → ℝ
  q1 : Fin 3 → ℝ
  lastAction : Option (Fin 3)

/-- Decode a validated raw observation list into per-modality outcome
indices. -/
def obsFun (obs : List ℕ) : Fin 3 → Fin 3 :=
  fun m => if h : obs.getD m 0 < 3 then ⟨obs.getD m 0, h⟩ else 0

/-- Modelled from the spec: the one-step predictive belief entering state
inference; the prior `D` at time 0 (beliefs are initialized from `D`),
and the transitioned previous belief under the last action afterwards. -/
def predictiveOf (ag : AgentState) : (Fin 2 → ℝ) × (Fin 3 → ℝ) :=
  match ag.lastAction with
  | none => (ag.q0, ag.q1)
  | some a => (predB0 ag.q0, predB1 a ag.q1)

/-- Modelled from the spec: `infer_states`.  Requires the
`AwaitingObservation` phase and a length-3 observation vector whose
entries are inside their modality cardinalities; on failure the error is
returned and the agent is unchanged. -/
def agentInferStates (ag : AgentState) (obs : List ℕ) : AgentState × Option AgentError :=
  if ag.phase ≠ Phase.AwaitingObservation then
    (ag, some AgentError.InvalidStateTransitionError)
  else if ¬(obs.length = 3 ∧ ∀ i ∈ obs, i < 3) then
    (ag, some AgentError.InvalidObservationError)
  else
    let pr := predictiveOf ag
    let qs := inferStates (obsFun obs) pr.1 pr.2 inferIters
    ({ phase := Phase.BeliefUpdated, q0 := qs.1, q1 := qs.2,
       lastAction := ag.lastAction }, none)

/-- Modelled from the spec: `infer_policies`.  Requires the
`BeliefUpdated` phase; returns the policy posterior and the expected free
energies of the one-step policies. -/
def agentInferPolicies (gamma : ℝ) (ag : AgentState) :
    (AgentState × ((Fin 3 → ℝ) × (Fin 3 → ℝ))) × Option AgentError :=
  if ag.phase ≠ Phase.BeliefUpdated then
    ((ag, (fun _ => 0, fun _ => 0)), some AgentError.InvalidStateTransitionError)
  else
    let efe := fun a => efePolicy ag.q0 ag.q1 a
    (({ ag with phase := Phase.PolicyEvaluated },
      (policyPosterior gamma efe, efe)), none)

/-- Modelled from the spec: `sample_action`.  Requires the
`PolicyEvaluated` phase; recomputes the policy posterior, samples the
controllable-factor action from it with the injected draw `u`, and
returns the no-op index for the fixed factor. -/
def agentSampleAction (gamma : ℝ) (u : ℝ) (ag : AgentState) :
    (AgentState × (ℕ × ℕ)) × Option AgentError :=
  if ag.phase ≠ Phase.PolicyEvaluated then
    ((ag, (0, 0)), some AgentError.InvalidStateTransitionError)
  else
    let post := policyPosterior gamma (fun a => efePolicy ag.q0 ag.q1 a)
    let a1 := sampleCat [post 0, post 1, post 2] u
    let a0 := sampleCat [(1 : ℝ)] u
    ((⟨Phase.AwaitingObservation, ag.q0, ag.q1,
       some (if h : a1 < 3 then ⟨a1, h⟩ else 0)⟩, (a0, a1)), none)

/-- One full decision cycle of the agent on an observation and an injected
random draw. -/
def stepAgent (gamma : ℝ) (ag : AgentState) (obs : List ℕ) (u : ℝ) :
    AgentState × (ℕ × ℕ) :=
  let r1 := agentInferStates ag obs
  let r2 := agentInferPolicies gamma r1.1
  let r3 := agentSampleAction gamma u r2.1.1
  (r3.1.1, r3.1.2)

/-- A complete run: a trace of observations paired with the injected
random draws, producing the belief states and sampled actions of each
timestep. -/
def runAgent (gamma : ℝ) : AgentState → List (List ℕ × ℝ) →
    List (((Fin 2 → ℝ) × (Fin 3 → ℝ)) × (ℕ × ℕ))
  | _, [] => []
  | ag, (obs, u) :: rest =>
    let s := stepAgent gamma ag obs u
    ((s.1.q0, s.1.q1), s.2) :: runAgent gamma s.1 rest

/-! ## Basic lemmas on the numeric primitives -/

theorem epsFloor_pos : 0 < epsFloor := by norm_num [epsFloor]

theorem slog_one : slog 1 = 0 := by
  rw [slog, max_eq_left (by norm_num [epsFloor]), Real.log_one]

theorem slog_zero : slog 0 = Real.log epsFloor := by
  rw [slog, max_eq_right (by norm_num [epsFloor])]

theorem slog_eq_log {x : ℝ} (h : epsFloor ≤ x) : slog x = Real.log x := by
  rw [slog, max_eq_left h]

theorem exp_slog {x : ℝ} (h : epsFloor ≤ x) : Real.exp (slog x) = x := by
  rw [slog_eq_log h, Real.exp_log (lt_of_lt_of_le epsFloor_pos h)]

theorem exp_log_epsFloor : Real.exp (Real.log epsFloor) = epsFloor :=
  Real.exp_log epsFloor_pos

theorem softmaxFn_sum_pos {n : ℕ} [NeZero n] (v : Fin n → ℝ) :
    0 < ∑ j, Real.exp (v j) :=
  Finset.sum_pos (fun _ _ => Real.exp_pos _) Finset.univ_nonempty

theorem softmaxFn_pos {n : ℕ} [NeZero n] (v : Fin n → ℝ) (i : Fin n) :
    0 < softmaxFn v i :=
  div_pos (Real.exp_pos _) (softmaxFn_sum_pos v)

theorem softmaxFn_sum_one {n : ℕ} [NeZero n] (v : Fin n → ℝ) :
    ∑ i, softmaxFn v i = 1 := by
  unfold softmaxFn
  rw [← Finset.sum_div]
  exact div_self (ne_of_gt (softmaxFn_sum_pos v))

theorem softmax3_lt_one (v : Fin 3 → ℝ) (i : Fin 3) : softmaxFn v i < 1 := by
  unfold softmaxFn
  rw [div_lt_one (softmaxFn_sum_pos v), Fin.sum_univ_three]
  fin_cases i <;> simp <;>
    nlinarith [Real.exp_pos (v 0), Real.exp_pos (v 1), Real.exp_pos (v 2)]

theorem softmaxFn_shift {n : ℕ} (c : ℝ) (w : Fin n → ℝ) :
    softmaxFn (fun i => c + w i) = softmaxFn w := by
  funext i
  unfold softmaxFn
  simp only [Real.exp_add]
  rw [← Finset.mul_sum, mul_div_mul_left _ _ (Real.exp_ne_zero c)]

theorem softmaxFn_const {n : ℕ} [NeZero n] (c : ℝ) (i : Fin n) :
    softmaxFn (fun _ => c) i = 1 / (n : ℝ) := by
  have hn : (0 : ℝ) < (n : ℝ) := by
    exact_mod_cast Nat.pos_of_ne_zero (NeZero.ne n)
  unfold softmaxFn
  rw [Finset.sum_const, Finset.card_univ, Fintype.card_fin, nsmul_eq_mul]
  rw [div_eq_div_iff (mul_pos hn (Real.exp_pos c)).ne' hn.ne']
  ring

/-! ## Evaluating the fixed-point sweeps at the time-0 observation -/

theorem score0_obsT0 (p0 : Fin 2 → ℝ) (q1 : Fin 3 → ℝ) (s0 : Fin 2) :
    score0 obsT0 p0 q1 s0 =
      (2 * q1 1 + 2 * q1 2) * Real.log epsFloor + slog (p0 s0) := by
  fin_cases s0 <;>
    · simp [score0, obsT0, Aref, A0ref, A1ref, A2ref, Fin.sum_univ_three,
        Fin.sum_univ_two, slog_one, slog_zero]
      ring

theorem update0_obsT0 (p0 : Fin 2 → ℝ) (q1 : Fin 3 → ℝ) :
    update0 obsT0 p0 q1 = softmaxFn (fun s0 => slog (p0 s0)) := by
  unfold update0
  rw [show score0 obsT0 p0 q1 =
      fun s0 => (2 * q1 1 + 2 * q1 2) * Real.log epsFloor + slog (p0 s0) from
    funext (score0_obsT0 p0 q1), softmaxFn_shift]

theorem score1_obsT0 (p1 : Fin 3 → ℝ) (q0 : Fin 2 → ℝ) (s1 : Fin 3) :
    score1 obsT0 p1 q0 s1 =
      (if s1 = 0 then 0 else 2 * (q0 0 + q0 1) * Real.log epsFloor) + slog (p1 s1) := by
  fin_cases s1 <;>
    simp [score1, obsT0, Aref, A0ref, A1ref, A2ref, Fin.sum_univ_three,
      Fin.sum_univ_two, slog_one, slog_zero] <;>
    ring

theorem update1_obsT0_D1 (q0 : Fin 2 → ℝ) (h : q0 0 + q0 1 = 1) :
    update1 obsT0 ![1, 0, 0] q0 = q1Star := by
  unfold update1
  have hs : score1 obsT0 ![1, 0, 0] q0 =
      fun s1 => if s1 = 0 then (0 : ℝ) else 3 * Real.log epsFloor := by
    funext s1
    rw [score1_obsT0]
    fin_cases s1 <;> simp [slog_one, slog_zero, h] <;> ring
  rw [hs]
  funext s1
  have he3 : Real.exp (3 * Real.log epsFloor) = epsFloor ^ 3 := by
    rw [show (3 : ℝ) * Real.log epsFloor = (3 : ℕ) * Real.log epsFloor by norm_num,
      Real.exp_nat_mul, exp_log_epsFloor]
  fin_cases s1 <;>
    · simp [softmaxFn, q1Star, Fin.sum_univ_three, he3, Real.exp_zero]
      ring_nf

theorem sweep_obsT0_D1 (p0 : Fin 2 → ℝ) (q : (Fin 2 → ℝ) × (Fin 3 → ℝ)) :
    sweep obsT0 p0 ![1, 0, 0] q =
      (softmaxFn (fun s0 => slog (p0 s0)), q1Star) := by
  unfold sweep
  rw [update0_obsT0]
  exact Prod.ext rfl (update1_obsT0_D1 _ (by
    have := softmaxFn_sum_one (fun s0 => slog (p0 s0))
    rwa [Fin.sum_univ_two] at this))

theorem inferStates_obsT0_D1 (p0 : Fin 2 → ℝ) (n : ℕ) (hn : 1 ≤ n) :
    inferStates obsT0 p0 ![1, 0, 0] n =
      (softmaxFn (fun s0 => slog (p0 s0)), q1Star) := by
  obtain ⟨m, rfl⟩ : ∃ m, n = m + 1 := ⟨n - 1, by omega⟩
  unfold inferStates
  rw [Function.iterate_succ_apply']
  exact sweep_obsT0_D1 p0 _

theorem softmax_slog_uniform :
    softmaxFn (fun s0 => slog ((![1/2, 1/2] : Fin 2 → ℝ) s0)) = ![1/2, 1/2] := by
  have h : (fun s0 => slog ((![1/2, 1/2] : Fin 2 → ℝ) s0)) =
      fun _ => Real.log (1/2) := by
    funext s0
    fin_cases s0 <;>
      simp only [Matrix.cons_val_zero, Matrix.cons_val_one, Matrix.head_cons] <;>
      exact slog_eq_log (by norm_num [epsFloor])
  rw [h]
  funext i
  rw [softmaxFn_const]
  fin_cases i <;> norm_num

theorem softmax_slog_onehot :
    softmaxFn (fun s0 => slog ((![1, 0] : Fin 2 → ℝ) s0)) =
      ![1/(1 + epsFloor), epsFloor/(1 + epsFloor)] := by
  have h : (fun s0 => slog ((![1, 0] : Fin 2 → ℝ) s0)) =
      (![0, Real.log epsFloor] : Fin 2 → ℝ) := by
    funext s0
    fin_cases s0 <;> simp [slog_one, slog_zero]
  rw [h]
  funext i
  fin_cases i <;>
    simp [softmaxFn, Fin.sum_univ_two, Real.exp_zero, exp_log_epsFloor]

/-! ## Evaluating the factor-0 update at the time-1 observation -/

theorem score0_obsT1 (p0 : Fin 2 → ℝ) (q1 : Fin 3 → ℝ) (s0 : Fin 2) :
    score0 obsT1 p0 q1 s0 =
      ((2 * q1 0 + 3 * q1 1) * Real.log epsFloor
        + q1 2 * (if s0 = 0 then Real.log 0.8 else Real.log 0.2)) + slog (p0 s0) := by
  have h8 : slog 0.8 = Real.log 0.8 := slog_eq_log (by norm_num [epsFloor])
  have h2 : slog 0.2 = Real.log 0.2 := slog_eq_log (by norm_num [epsFloor])
  fin_cases s0 <;>
    simp [score0, obsT1, Aref, A0ref, A1ref, A2ref, Fin.sum_univ_three,
      Fin.sum_univ_two, slog_one, slog_zero, h8, h2] <;>
    ring

theorem update0_obsT1_uniform (q1 : Fin 3 → ℝ) :
    update0 obsT1 ![1/2, 1/2] q1 =
      softmaxFn ![q1 2 * Real.log 0.8, q1 2 * Real.log 0.2] := by
  unfold update0
  have hs : score0 obsT1 ![1/2, 1/2] q1 =
      fun s0 => ((2 * q1 0 + 3 * q1 1) * Real.log epsFloor + Real.log (1/2))
        + (![q1 2 * Real.log 0.8, q1 2 * Real.log 0.2] : Fin 2 → ℝ) s0 := by
    funext s0
    rw [score0_obsT1]
    have hhalf : slog ((![1/2, 1/2] : Fin 2 → ℝ) s0) = Real.log (1/2) := by
      fin_cases s0 <;>
        simp only [Matrix.cons_val_zero, Matrix.cons_val_one, Matrix.head_cons] <;>
        exact slog_eq_log (by norm_num [epsFloor])
    rw [hhalf]
    fin_cases s0 <;> simp <;> ring
  rw [hs, softmaxFn_shift]

theorem update0_obsT1_uniform_lt (q1 : Fin 3 → ℝ) (h : q1 2 < 1) :
    update0 obsT1 ![1/2, 1/2] q1 0 < 4/5 := by
  rw [update0_obsT1_uniform]
  unfold softmaxFn
  rw [Fin.sum_univ_two]
  simp only [Matrix.cons_val_zero, Matrix.cons_val_one, Matrix.head_cons]
  have hlog4 : Real.log 0.8 - Real.log 0.2 = Real.log 4 := by
    rw [← Real.log_div (by norm_num) (by norm_num)]
    norm_num
  have hkey : Real.exp (q1 2 * Real.log 0.8) < 4 * Real.exp (q1 2 * Real.log 0.2) := by
    have h1 : q1 2 * Real.log 0.8 - q1 2 * Real.log 0.2 = q1 2 * Real.log 4 := by
      rw [← mul_sub, hlog4]
    have h2 : q1 2 * Real.log 4 < Real.log 4 := by
      nlinarith [Real.log_pos (show (1:ℝ) < 4 by norm_num)]
    have h3 : Real.exp (q1 2 * Real.log 0.8 - q1 2 * Real.log 0.2) < 4 := by
      rw [h1]
      calc Real.exp (q1 2 * Real.log 4) < Real.exp (Real.log 4) :=
            Real.exp_lt_exp.mpr h2
        _ = 4 := Real.exp_log (by norm_num)
    rw [Real.exp_sub] at h3
    exact (div_lt_iff₀ (Real.exp_pos _)).mp h3
  have hd : 0 < Real.exp (q1 2 * Real.log 0.8) + Real.exp (q1 2 * Real.log 0.2) := by
    positivity
  rw [div_lt_iff₀ hd]
  nlinarith [Real.exp_pos (q1 2 * Real.log 0.2), Real.exp_pos (q1 2 * Real.log 0.8)]

theorem sweep_fst (o : Fin 3 → Fin 3) (p0 : Fin 2 → ℝ) (p1 : Fin 3 → ℝ)
    (q : (Fin 2 → ℝ) × (Fin 3 → ℝ)) :
    (sweep o p0 p1 q).1 = update0 o p0 q.2 := rfl

theorem sweep_snd (o : Fin 3 → Fin 3) (p0 : Fin 2 → ℝ) (p1 : Fin 3 → ℝ)
    (q : (Fin 2 → ℝ) × (Fin 3 → ℝ)) :
    (sweep o p0 p1 q).2 = update1 o p1 (update0 o p0 q.2) := rfl

theorem inferStates_obsT1_one :
    (inferStates obsT1 ![1/2, 1/2] ![0, 0, 1] 1).1 = ![4/5, 1/5] := by
  have h1 : (inferStates obsT1 ![1/2, 1/2] ![0, 0, 1] 1).1 =
      update0 obsT1 ![1/2, 1/2] ![0, 0, 1] := rfl
  rw [h1, update0_obsT1_uniform]
  funext i
  unfold softmaxFn
  rw [Fin.sum_univ_two]
  fin_cases i <;>
    · simp only [Matrix.cons_val_zero, Matrix.cons_val_one, Matrix.head_cons,
        Matrix.cons_val_two, Matrix.tail_cons, one_mul]
      norm_num [Real.exp_log]

theorem inferStates_obsT1_lt (k : ℕ) :
    (inferStates obsT1 ![1/2, 1/2] ![0, 0, 1] (k + 2)).1 0 < 4/5 := by
  unfold inferStates
  rw [Function.iterate_succ_apply', sweep_fst]
  have hq1 : ((sweep obsT1 ![1/2, 1/2] ![0, 0, 1])^[k+1]
      (![1/2, 1/2], ![0, 0, 1])).2 2 < 1 := by
    rw [Function.iterate_succ_apply', sweep_snd]
    exact softmax3_lt_one _ 2
  exact update0_obsT1_uniform_lt _ hq1

/-! ## Claim C1 -/

/-- Claim C1 (amended): for the reference model at time 0, with prior
`D = ([1/2, 1/2], [1, 0, 0])` and observation
`(NO_EVIDENCE, NEUTRAL, START_O)`, `infer_states` returns, for every
iteration count at least 1, factor-1 belief exactly `[0.5, 0.5]` and a
factor-2 belief that is one-hot on `START` up to the residue of the
numeric log floor: exactly
`[1, eps^3, eps^3] / (1 + 2 eps^3)` with `eps = 1e-16`, not exactly
`[1, 0, 0]`. -/
theorem claim_C1_amended (n : ℕ) (hn : 1 ≤ n) :
    (inferStates obsT0 ![1/2, 1/2] ![1, 0, 0] n).1 = ![1/2, 1/2] ∧
    (inferStates obsT0 ![1/2, 1/2] ![1, 0, 0] n).2 = q1Star := by
  have h := inferStates_obsT0_D1 ![1/2, 1/2] n hn
  rw [softmax_slog_uniform] at h
  exact ⟨by rw [h], by rw [h]⟩

/-- Claim C1 witness: the amended claim instantiated at one sweep. -/
theorem claim_C1_amended_witness :
    (inferStates obsT0 ![1/2, 1/2] ![1, 0, 0] 1).1 = ![1/2, 1/2] ∧
    (inferStates obsT0 ![1/2, 1/2] ![1, 0, 0] 1).2 = q1Star :=
  claim_C1_amended 1 (by norm_num)

/-- Claim C1 counterexample: at the default iteration budget the
factor-2 belief is not exactly `[1, 0, 0]`: its `START` entry is
`1 / (1 + 2e-48)`, strictly below 1. -/
theorem claim_C1_counterexample :
    (inferStates obsT0 ![1/2, 1/2] ![1, 0, 0] inferIters).2 0 ≠ 1 := by
  have h := inferStates_obsT0_D1 ![1/2, 1/2] inferIters (by norm_num [inferIters])
  rw [h]
  show q1Star 0 ≠ 1
  unfold q1Star
  rw [if_pos rfl]
  intro hc
  rw [div_eq_iff (by norm_num [epsFloor] : (1 : ℝ) + 2 * epsFloor ^ 3 ≠ 0)] at hc
  norm_num [epsFloor] at hc

/-! ## Claim C2 -/

/-- Claim C2 (amended): in the continuation scenario (predictive factor-1
belief `[0.5, 0.5]`, factor-2 predictive one-hot on `SAMPLING`,
observation `(HIGH_REW_EVIDENCE, NEUTRAL, SAMPLE_O)`), a single
fixed-point sweep of `infer_states` returns the factor-1 posterior
exactly `[0.8, 0.2]`, the Bayes-rule normalization of the likelihood
column `[0.8, 0.2]` against the prior `[0.5, 0.5]`. -/
theorem claim_C2_amended :
    (inferStates obsT1 ![1/2, 1/2] ![0, 0, 1] 1).1 = ![4/5, 1/5] :=
  inferStates_obsT1_one

/-- Claim C2 counterexample: with the default iteration budget (more than
one sweep), the factor-1 posterior is not exactly `[0.8, 0.2]`: the log
floor leaves an `eps^3` mass on the other factor-2 states, which feeds
back into the factor-1 update and drags its `HIGH_REW` entry strictly
below 0.8. -/
theorem claim_C2_counterexample :
    (inferStates obsT1 ![1/2, 1/2] ![0, 0, 1] inferIters).1 0 ≠ 4/5 := by
  have h : inferIters = 8 + 2 := by norm_num [inferIters]
  rw [h]
  exact ne_of_lt (inferStates_obsT1_lt 8)

/-! ## Claim C8 -/

/-- Claim C8 (amended): for the reference model with the predictive belief
one-hot on the joint state `(HIGH_REW, START)` and the observation
`(NO_EVIDENCE, NEUTRAL, START_O)` (each modality assigns likelihood 1 to
the observed outcome at that state), the posterior returned by
`infer_states` is the same for every iteration count at least 1 and
assigns at least `1 - 1e-9` to the believed state of each factor -- but
because of the numeric log floor it is `1/(1 + eps)` on `HIGH_REW`, not
exactly 1. -/
theorem claim_C8_amended (n : ℕ) (hn : 1 ≤ n) :
    (inferStates obsT0 ![1, 0] ![1, 0, 0] n).1 =
      ![1/(1 + epsFloor), epsFloor/(1 + epsFloor)] ∧
    (inferStates obsT0 ![1, 0] ![1, 0, 0] n).2 = q1Star ∧
    1 - 1e-9 ≤ (inferStates obsT0 ![1, 0] ![1, 0, 0] n).1 0 ∧
    1 - 1e-9 ≤ (inferStates obsT0 ![1, 0] ![1, 0, 0] n).2 0 := by
  have h := inferStates_obsT0_D1 ![1, 0] n hn
  rw [softmax_slog_onehot] at h
  refine ⟨by rw [h], by rw [h], ?_, ?_⟩
  · rw [h]
    show 1 - 1e-9 ≤ 1/(1 + epsFloor)
    rw [le_div_iff₀ (by norm_num [epsFloor] : (0 : ℝ) < 1 + epsFloor)]
    norm_num [epsFloor]
  · rw [h]
    show 1 - 1e-9 ≤ q1Star 0
    unfold q1Star
    rw [if_pos rfl, le_div_iff₀ (by norm_num [epsFloor] : (0 : ℝ) < 1 + 2 * epsFloor ^ 3)]
    norm_num [epsFloor]

/-- Claim C8 witness: the amended claim instantiated at one sweep. -/
theorem claim_C8_amended_witness :
    (inferStates obsT0 ![1, 0] ![1, 0, 0] 1).1 =
      ![1/(1 + epsFloor), epsFloor/(1 + epsFloor)] ∧
    (inferStates obsT0 ![1, 0] ![1, 0, 0] 1).2 = q1Star ∧
    1 - 1e-9 ≤ (inferStates obsT0 ![1, 0] ![1, 0, 0] 1).1 0 ∧
    1 - 1e-9 ≤ (inferStates obsT0 ![1, 0] ![1, 0, 0] 1).2 0 :=
  claim_C8_amended 1 (by norm_num)

/-- Claim C8 counterexample: even though the predictive assigns
probability 1 to `HIGH_REW` and every observed outcome has likelihood 1
at the believed state, the posterior `HIGH_REW` entry is `1/(1 + 1e-16)`,
not exactly 1. -/
theorem claim_C8_counterexample :
    (inferStates obsT0 ![1, 0] ![1, 0, 0] 1).1 0 ≠ 1 := by
  have h := inferStates_obsT0_D1 ![1, 0] 1 (by norm_num)
  rw [softmax_slog_onehot] at h
  rw [h]
  show (1 : ℝ)/(1 + epsFloor) ≠ 1
  intro hc
  rw [div_eq_iff (by norm_num [epsFloor] : (1 : ℝ) + epsFloor ≠ 0)] at hc
  norm_num [epsFloor] at hc

/-! ## Claim C4 -/

/-- Claim C4: after every `infer_states` call (any observation, any
predictive beliefs, any positive iteration budget), every factor of the
returned belief state has nonnegative entries and sums to 1 within
1e-9 (indeed exactly). -/
theorem claim_C4_normalized (o : Fin 3 → Fin 3) (pred0 : Fin 2 → ℝ)
    (pred1 : Fin 3 → ℝ) (n : ℕ) (hn : 1 ≤ n) :
    (∀ s, 0 ≤ (inferStates o pred0 pred1 n).1 s) ∧
    |(∑ s, (inferStates o pred0 pred1 n).1 s) - 1| ≤ 1e-9 ∧
    (∀ s, 0 ≤ (inferStates o pred0 pred1 n).2 s) ∧
    |(∑ s, (inferStates o pred0 pred1 n).2 s) - 1| ≤ 1e-9 := by
  obtain ⟨m, rfl⟩ : ∃ m, n = m + 1 := ⟨n - 1, by omega⟩
  have hiter : inferStates o pred0 pred1 (m + 1) =
      sweep o pred0 pred1 ((sweep o pred0 pred1)^[m] (pred0, pred1)) := by
    unfold inferStates
    rw [Function.iterate_succ_apply']
  rw [hiter, sweep_fst, sweep_snd]
  unfold update0 update1
  refine ⟨fun s => (softmaxFn_pos _ s).le, ?_, fun s => (softmaxFn_pos _ s).le, ?_⟩ <;>
    · rw [softmaxFn_sum_one]
      norm_num

/-- Claim C4 witness: instantiated at the time-0 reference inputs with one
sweep. -/
theorem claim_C4_normalized_witness :
    (∀ s, 0 ≤ (inferStates obsT0 ![1/2, 1/2] ![1, 0, 0] 1).1 s) ∧
    |(∑ s, (inferStates obsT0 ![1/2, 1/2] ![1, 0, 0] 1).1 s) - 1| ≤ 1e-9 ∧
    (∀ s, 0 ≤ (inferStates obsT0 ![1/2, 1/2] ![1, 0, 0] 1).2 s) ∧
    |(∑ s, (inferStates obsT0 ![1/2, 1/2] ![1, 0, 0] 1).2 s) - 1| ≤ 1e-9 :=
  claim_C4_normalized obsT0 ![1/2, 1/2] ![1, 0, 0] 1 (by norm_num)

/-! ## Claim C10 -/

/-- Claim C10: in the demonstration generative model every transition
slice is one-hot: with `p_stoch = 0`, `B[0][sn, s, NULL_ACTION]` is the
identity (the game state persists with probability 1), and
`B[1][sn, s, a]` is 1 exactly when the next state equals the chosen
action, for every previous state. -/
theorem claim_C10_transitions :
    (∀ sn s : Fin 2, B0ref sn s 0 = if sn = s then 1 else 0) ∧
    (∀ sn s a : Fin 3, B1ref sn s a = if sn = a then 1 else 0) := by
  refine ⟨fun sn s => ?_, fun sn s a => rfl⟩
  unfold B0ref pStoch
  split_ifs <;> norm_num

/-! ## Claim C5 -/

theorem HIGH_REW_MAPPING_sum : HIGH_REW_MAPPING 0 + HIGH_REW_MAPPING 1 = 1 := by
  have h := softmaxFn_sum_one (![1, 0] : Fin 2 → ℝ)
  rwa [Fin.sum_univ_two] at h

theorem LOW_REW_MAPPING_sum : LOW_REW_MAPPING 0 + LOW_REW_MAPPING 1 = 1 := by
  have h := softmaxFn_sum_one (![0, 1] : Fin 2 → ℝ)
  rwa [Fin.sum_univ_two] at h

theorem aNormalized_Aref : aNormalized Aref := by
  intro m s0 s1
  fin_cases m <;> fin_cases s0 <;> fin_cases s1 <;>
    simp [Aref, A0ref, A1ref, A2ref, Fin.sum_univ_three] <;>
    norm_num [HIGH_REW_MAPPING_sum, LOW_REW_MAPPING_sum, sub_self, abs_zero]

theorem bNormalized_ref : bNormalized B0ref B1ref := by
  constructor
  · intro s a
    fin_cases s <;> fin_cases a <;>
      simp [B0ref, pStoch, Fin.sum_univ_two] <;>
      norm_num [sub_self, abs_zero]
  · intro s a
    fin_cases a <;>
      simp [B1ref, Fin.sum_univ_three] <;>
      norm_num [sub_self, abs_zero]

/-- Claim C5: construction of the generative model succeeds exactly when
every A-slice and every B-slice is normalized within 1e-6; a violation
yields `NotNormalizedError`; every successfully constructed model
satisfies the invariant; and the reference tensors of the demo pass
validation. -/
theorem claim_C5_construction :
    (∀ A B0 B1 C D0 D1 M, mkGenModel A B0 B1 C D0 D1 = Except.ok M →
      aNormalized M.A ∧ bNormalized M.B0 M.B1) ∧
    (∀ A B0 B1 C D0 D1, ¬(aNormalized A ∧ bNormalized B0 B1) →
      mkGenModel A B0 B1 C D0 D1 = Except.error ModelError.NotNormalizedError) ∧
    (∀ A B0 B1 C D0 D1, aNormalized A ∧ bNormalized B0 B1 →
      mkGenModel A B0 B1 C D0 D1 = Except.ok ⟨A, B0, B1, C, D0, D1⟩) ∧
    mkGenModel Aref B0ref B1ref Cref D0ref D1ref =
      Except.ok ⟨Aref, B0ref, B1ref, Cref, D0ref, D1ref⟩ := by
  have hok : ∀ A B0 B1 C D0 D1, aNormalized A ∧ bNormalized B0 B1 →
      mkGenModel A B0 B1 C D0 D1 = Except.ok ⟨A, B0, B1, C, D0, D1⟩ := by
    intro A B0 B1 C D0 D1 h
    unfold mkGenModel
    rw [if_pos h]
  refine ⟨?_, ?_, hok, hok _ _ _ _ _ _ ⟨aNormalized_Aref, bNormalized_ref⟩⟩
  · intro A B0 B1 C D0 D1 M h
    unfold mkGenModel at h
    by_cases hc : aNormalized A ∧ bNormalized B0 B1
    · rw [if_pos hc] at h
      injection h with h2
      rw [← h2]
      exact hc
    · rw [if_neg hc] at h
      exact absurd h (by simp)
  · intro A B0 B1 C D0 D1 h
    unfold mkGenModel
    rw [if_neg h]

/-- Claim C5 witness: the reference tensors are validated and the
constructor returns the immutable container holding them. -/
theorem claim_C5_construction_witness :
    mkGenModel Aref B0ref B1ref Cref D0ref D1ref =
      Except.ok ⟨Aref, B0ref, B1ref, Cref, D0ref, D1ref⟩ :=
  claim_C5_construction.2.2.1 Aref B0ref B1ref Cref D0ref D1ref
    ⟨aNormalized_Aref, bNormalized_ref⟩

/-! ## Claim C6 -/

/-- Claim C6: caller-usage errors are atomic and synchronous.  Calling
any of the three operations out of cycle order returns
`InvalidStateTransitionError`; an observation vector of the wrong length
or with an out-of-range index returns `InvalidObservationError`; in every
failed call the agent (belief state and cycle state) is returned
unchanged. -/
theorem claim_C6_errors :
    (∀ ag obs, ag.phase ≠ Phase.AwaitingObservation →
      agentInferStates ag obs = (ag, some AgentError.InvalidStateTransitionError)) ∧
    (∀ ag obs, ag.phase = Phase.AwaitingObservation →
      ¬(obs.length = 3 ∧ ∀ i ∈ obs, i < 3) →
      agentInferStates ag obs = (ag, some AgentError.InvalidObservationError)) ∧
    (∀ gamma ag, ag.phase ≠ Phase.BeliefUpdated →
      agentInferPolicies gamma ag =
        ((ag, (fun _ => 0, fun _ => 0)), some AgentError.InvalidStateTransitionError)) ∧
    (∀ gamma u ag, ag.phase ≠ Phase.PolicyEvaluated →
      agentSampleAction gamma u ag =
        ((ag, (0, 0)), some AgentError.InvalidStateTransitionError)) := by
  refine ⟨fun ag obs h => ?_, fun ag obs h1 h2 => ?_, fun gamma ag h => ?_,
    fun gamma u ag h => ?_⟩
  · unfold agentInferStates
    rw [if_pos h]
  · unfold agentInferStates
    rw [if_neg (by simp [h1]), if_pos h2]
  · unfold agentInferPolicies
    rw [if_pos h]
  · unfold agentSampleAction
    rw [if_pos h]

/-- Claim C6 witness: concrete out-of-order calls and a concrete malformed
observation, each leaving the concrete agent unchanged. -/
theorem claim_C6_errors_witness :
    agentInferStates ⟨Phase.BeliefUpdated, ![1/2, 1/2], ![1, 0, 0], none⟩ [2, 2, 0] =
      (⟨Phase.BeliefUpdated, ![1/2, 1/2], ![1, 0, 0], none⟩,
        some AgentError.InvalidStateTransitionError) ∧
    agentInferStates ⟨Phase.AwaitingObservation, ![1/2, 1/2], ![1, 0, 0], none⟩ [5, 0, 0] =
      (⟨Phase.AwaitingObservation, ![1/2, 1/2], ![1, 0, 0], none⟩,
        some AgentError.InvalidObservationError) ∧
    agentInferPolicies 16 ⟨Phase.AwaitingObservation, ![1/2, 1/2], ![1, 0, 0], none⟩ =
      ((⟨Phase.AwaitingObservation, ![1/2, 1/2], ![1, 0, 0], none⟩,
        (fun _ => 0, fun _ => 0)), some AgentError.InvalidStateTransitionError) ∧
    agentSampleAction 16 (1/2) ⟨Phase.BeliefUpdated, ![1/2, 1/2], ![1, 0, 0], none⟩ =
      ((⟨Phase.BeliefUpdated, ![1/2, 1/2], ![1, 0, 0], none⟩, (0, 0)),
        some AgentError.InvalidStateTransitionError) :=
  ⟨claim_C6_errors.1 _ _ (by simp),
   claim_C6_errors.2.1 _ _ rfl (by simp),
   claim_C6_errors.2.2.1 _ _ (by simp),
   claim_C6_errors.2.2.2 _ _ _ (by simp)⟩

/-! ## Claim C7 -/

theorem sampleCat_lt_length : ∀ (l : List ℝ) (u : ℝ), l ≠ [] →
    sampleCat l u < l.length
  | [], _, h => absurd rfl h
  | [_], _, _ => by simp [sampleCat]
  | x :: y :: t, u, _ => by
    rw [sampleCat]
    split_ifs
    · simp
    · have ih := sampleCat_lt_length (y :: t) (u - x) (by simp)
      simpa using Nat.succ_lt_succ ih

/-- Claim C7: every action returned by `sample_action` lies inside its
factor action space: the fixed `GAME_STATE` factor always gets the no-op
index 0 (with probability 1, for every injected draw), and the
controllable factor gets an index below 3, for every precision, draw and
agent in the `PolicyEvaluated` phase. -/
theorem claim_C7_action_bounds (gamma u : ℝ) (ag : AgentState)
    (h : ag.phase = Phase.PolicyEvaluated) :
    (agentSampleAction gamma u ag).1.2.1 = 0 ∧
    (agentSampleAction gamma u ag).1.2.2 < 3 := by
  unfold agentSampleAction
  rw [if_neg (by simp [h])]
  exact ⟨rfl, sampleCat_lt_length _ u (by simp)⟩

/-- Claim C7 witness: a concrete call. -/
theorem claim_C7_action_bounds_witness :
    (agentSampleAction 16 (7/10)
      ⟨Phase.PolicyEvaluated, ![1/2, 1/2], ![1, 0, 0], none⟩).1.2.1 = 0 ∧
    (agentSampleAction 16 (7/10)
      ⟨Phase.PolicyEvaluated, ![1/2, 1/2], ![1, 0, 0], none⟩).1.2.2 < 3 :=
  claim_C7_action_bounds 16 (7/10) _ rfl

/-! ## Expected free energy of the one-step policies -/

theorem predB0_eval (q0 : Fin 2 → ℝ) : predB0 q0 = q0 := by
  funext sn
  unfold predB0 B0ref pStoch
  fin_cases sn <;>
    · rw [Fin.sum_univ_two]
      norm_num

theorem predB1_start (a : Fin 3) :
    predB1 a ![1, 0, 0] = fun sn => if sn = a then 1 else 0 := by
  funext sn
  unfold predB1 B1ref
  rw [Fin.sum_univ_three]
  by_cases hsa : sn = a <;> simp [hsa]

theorem kl2_nonneg (p1 p2 q1 q2 : ℝ) (hp1 : 0 < p1) (hp2 : 0 < p2)
    (hq1 : 0 < q1) (hq2 : 0 < q2) (hp : p1 + p2 = 1) (hq : q1 + q2 = 1) :
    0 ≤ p1 * (Real.log p1 - Real.log q1) + p2 * (Real.log p2 - Real.log q2) := by
  have h1 : Real.log (q1 / p1) ≤ q1 / p1 - 1 :=
    Real.log_le_sub_one_of_pos (by positivity)
  have h2 : Real.log (q2 / p2) ≤ q2 / p2 - 1 :=
    Real.log_le_sub_one_of_pos (by positivity)
  rw [Real.log_div hq1.ne' hp1.ne'] at h1
  rw [Real.log_div hq2.ne' hp2.ne'] at h2
  have e1 : p1 * (q1 / p1 - 1) = q1 - p1 := by field_simp
  have e2 : p2 * (q2 / p2 - 1) = q2 - p2 := by field_simp
  have h3 : p1 * (Real.log q1 - Real.log p1) ≤ q1 - p1 :=
    (mul_le_mul_of_nonneg_left h1 hp1.le).trans_eq e1
  have h4 : p2 * (Real.log q2 - Real.log p2) ≤ q2 - p2 :=
    (mul_le_mul_of_nonneg_left h2 hp2.le).trans_eq e2
  nlinarith

theorem slog_45 : slog (4/5) = Real.log (4/5) := slog_eq_log (by norm_num [epsFloor])

theorem slog_15 : slog (1/5) = Real.log (1/5) := slog_eq_log (by norm_num [epsFloor])

theorem slog_half : slog (1/2) = Real.log (1/2) := slog_eq_log (by norm_num [epsFloor])

theorem hrm0 : HIGH_REW_MAPPING 0 = Real.exp 1 / (Real.exp 1 + 1) := by
  unfold HIGH_REW_MAPPING softmaxFn
  rw [Fin.sum_univ_two]
  norm_num [Real.exp_zero]

theorem hrm1 : HIGH_REW_MAPPING 1 = 1 / (Real.exp 1 + 1) := by
  unfold HIGH_REW_MAPPING softmaxFn
  rw [Fin.sum_univ_two]
  norm_num [Real.exp_zero]

theorem lrm0 : LOW_REW_MAPPING 0 = 1 / (1 + Real.exp 1) := by
  unfold LOW_REW_MAPPING softmaxFn
  rw [Fin.sum_univ_two]
  norm_num [Real.exp_zero]

theorem lrm1 : LOW_REW_MAPPING 1 = Real.exp 1 / (1 + Real.exp 1) := by
  unfold LOW_REW_MAPPING softmaxFn
  rw [Fin.sum_univ_two]
  norm_num [Real.exp_zero]

theorem expE_pos : (0:ℝ) < Real.exp 1 := Real.exp_pos 1

theorem expE1_pos : (0:ℝ) < Real.exp 1 + 1 := by positivity

theorem sigma0_ge : epsFloor ≤ (Real.exp 1 + 1)⁻¹ := by
  rw [le_inv_comm₀ epsFloor_pos expE1_pos]
  norm_num [epsFloor]
  nlinarith [Real.exp_one_lt_d9]

theorem sigma1_ge : epsFloor ≤ Real.exp 1 / (Real.exp 1 + 1) := by
  rw [le_div_iff₀ expE1_pos]
  norm_num [epsFloor]
  nlinarith [Real.exp_one_gt_d9, Real.exp_one_lt_d9]

theorem slog_sigma0 : slog ((Real.exp 1 + 1)⁻¹) = Real.log ((Real.exp 1 + 1)⁻¹) :=
  slog_eq_log sigma0_ge

theorem slog_sigma1 : slog (Real.exp 1 / (Real.exp 1 + 1)) =
    Real.log (Real.exp 1 / (Real.exp 1 + 1)) :=
  slog_eq_log sigma1_ge

/-- The expected free energy of the SAMPLE policy at the uniform game
state belief: purely epistemic (negative mutual information of the
0.8 / 0.2 evidence channel). -/
theorem efe_sample_uniform :
    efePolicy ![1/2, 1/2] ![1, 0, 0] 2 =
      -((4/5) * (Real.log (4/5) - Real.log (1/2))
        + (1/5) * (Real.log (1/5) - Real.log (1/2))) := by
  show efeStep (predB0 ![1/2, 1/2]) (predB1 2 ![1, 0, 0]) = _
  rw [predB0_eval, predB1_start]
  simp [efeStep, pragmatic, epistemic, klGain, postGiven, qobs, qjoint,
    Aref, A0ref, A1ref, A2ref, Cref, C0ref, C1ref, C2ref,
    Fin.sum_univ_three, Fin.sum_univ_two]
  norm_num [slog_45, slog_15, slog_half]
  rw [show Real.log (1/5) = -Real.log 5 by rw [one_div, Real.log_inv],
    show Real.log (1/2) = -Real.log 2 by rw [one_div, Real.log_inv]]
  ring

/-- The expected free energy of the PLAY policy at the uniform game state
belief: purely epistemic (negative mutual information of the softmax
reward channel). -/
theorem efe_play_uniform :
    efePolicy ![1/2, 1/2] ![1, 0, 0] 1 =
      -(Real.log 2 - Real.log (Real.exp 1 + 1) + Real.exp 1 / (Real.exp 1 + 1)) := by
  show efeStep (predB0 ![1/2, 1/2]) (predB1 1 ![1, 0, 0]) = _
  rw [predB0_eval, predB1_start]
  simp [efeStep, pragmatic, epistemic, klGain, postGiven, qobs, qjoint,
    Aref, A0ref, A1ref, A2ref, Cref, C0ref, C1ref, C2ref, hrm0, hrm1, lrm0, lrm1,
    Fin.sum_univ_three, Fin.sum_univ_two]
  norm_num [slog_half]
  simp only [show (1:ℝ) + Real.exp 1 = Real.exp 1 + 1 from add_comm 1 _]
  have d1 : (Real.exp 1 + 1)⁻¹ * (1 / 2) + Real.exp 1 / (Real.exp 1 + 1) * (1 / 2)
      = 1/2 := by
    field_simp
    ring
  have d2 : Real.exp 1 / (Real.exp 1 + 1) * (1 / 2) + (Real.exp 1 + 1)⁻¹ * (1 / 2)
      = 1/2 := by
    field_simp
  rw [d1, d2]
  have r1 : (Real.exp 1 + 1)⁻¹ * (1 / 2) / (1/2) = (Real.exp 1 + 1)⁻¹ := by ring
  have r2 : Real.exp 1 / (Real.exp 1 + 1) * (1 / 2) / (1/2)
      = Real.exp 1 / (Real.exp 1 + 1) := by ring
  rw [r1, r2]
  rw [slog_sigma0, slog_sigma1]
  rw [Real.log_inv, Real.log_div expE_pos.ne' expE1_pos.ne', Real.log_exp]
  rw [show Real.log (1/2) = -Real.log 2 by rw [one_div, Real.log_inv]]
  field_simp
  ring

/-- The expected free energy of the SAMPLE policy at the certain game
state belief is zero: the evidence is already known, so there is neither
information gain nor any preference weight on the neutral outcome. -/
theorem efe_sample_certain : efePolicy ![1, 0] ![1, 0, 0] 2 = 0 := by
  show efeStep (predB0 ![1, 0]) (predB1 2 ![1, 0, 0]) = _
  rw [predB0_eval, predB1_start]
  simp [efeStep, pragmatic, epistemic, klGain, postGiven, qobs, qjoint,
    Aref, A0ref, A1ref, A2ref, Cref, C0ref, C1ref, C2ref, hrm0, hrm1, lrm0, lrm1,
    Fin.sum_univ_three, Fin.sum_univ_two]
  norm_num [slog_one, slog_zero]

/-- The expected free energy of the PLAY policy at the certain
(`HIGH_REW`) game state belief: purely pragmatic, the negative expected
log preference of the softmax reward channel. -/
theorem efe_play_certain :
    efePolicy ![1, 0] ![1, 0, 0] 1 = (1 - Real.exp 1) / (Real.exp 1 + 1) := by
  show efeStep (predB0 ![1, 0]) (predB1 1 ![1, 0, 0]) = _
  rw [predB0_eval, predB1_start]
  simp [efeStep, pragmatic, epistemic, klGain, postGiven, qobs, qjoint,
    Aref, A0ref, A1ref, A2ref, Cref, C0ref, C1ref, C2ref, hrm0, hrm1, lrm0, lrm1,
    Fin.sum_univ_three, Fin.sum_univ_two]
  norm_num [slog_one, slog_zero]
  have e1 : (Real.exp 1 + 1)⁻¹ * (Real.exp 1 + 1) = 1 :=
    inv_mul_cancel₀ expE1_pos.ne'
  have e2 : Real.exp 1 / (Real.exp 1 + 1) / (Real.exp 1 / (Real.exp 1 + 1)) = 1 :=
    div_self (by positivity)
  rw [e1, e2, slog_one]
  field_simp
  ring

theorem slog_9_10 : slog (9/10) = Real.log (9/10) := slog_eq_log (by norm_num [epsFloor])

theorem slog_1_10 : slog (1/10) = Real.log (1/10) := slog_eq_log (by norm_num [epsFloor])

theorem slog_36_37 : slog (36/37) = Real.log (36/37) := slog_eq_log (by norm_num [epsFloor])

theorem slog_1_37 : slog (1/37) = Real.log (1/37) := slog_eq_log (by norm_num [epsFloor])

theorem slog_9_13 : slog (9/13) = Real.log (9/13) := slog_eq_log (by norm_num [epsFloor])

theorem slog_4_13 : slog (4/13) = Real.log (4/13) := slog_eq_log (by norm_num [epsFloor])

theorem sigma0_ge_quarter : (1/4 : ℝ) ≤ (Real.exp 1 + 1)⁻¹ := by
  rw [le_inv_comm₀ (by norm_num) expE1_pos]
  norm_num
  nlinarith [Real.exp_one_lt_d9]

theorem sigma0_le_one : (Real.exp 1 + 1)⁻¹ ≤ 1 := by
  rw [← one_div, div_le_one expE1_pos]
  nlinarith [expE_pos]

theorem sigma1_ge_half : (1/2 : ℝ) ≤ Real.exp 1 / (Real.exp 1 + 1) := by
  rw [le_div_iff₀ expE1_pos]
  nlinarith [Real.exp_one_gt_d9]

theorem sigma1_le_one : Real.exp 1 / (Real.exp 1 + 1) ≤ 1 := by
  rw [div_le_one expE1_pos]
  nlinarith [expE_pos]

/-- The expected free energy of the SAMPLE policy at the `[0.9, 0.1]`
game state belief: the residual mutual information of the evidence
channel under an already confident belief. -/
theorem efe_sample_09 :
    efePolicy ![9/10, 1/10] ![1, 0, 0] 2 =
      -((37/50) * ((36/37) * (Real.log (36/37) - Real.log (9/10))
          + (1/37) * (Real.log (1/37) - Real.log (1/10)))
        + (13/50) * ((9/13) * (Real.log (9/13) - Real.log (9/10))
          + (4/13) * (Real.log (4/13) - Real.log (1/10)))) := by
  show efeStep (predB0 ![9/10, 1/10]) (predB1 2 ![1, 0, 0]) = _
  rw [predB0_eval, predB1_start]
  simp [efeStep, pragmatic, epistemic, klGain, postGiven, qobs, qjoint,
    Aref, A0ref, A1ref, A2ref, Cref, C0ref, C1ref, C2ref,
    Fin.sum_univ_three, Fin.sum_univ_two]
  norm_num [slog_9_10, slog_1_10, slog_36_37, slog_1_37, slog_9_13, slog_4_13]
  rw [show Real.log (1/10) = -Real.log 10 by rw [one_div, Real.log_inv],
    show Real.log (1/37) = -Real.log 37 by rw [one_div, Real.log_inv]]
  ring

/-- The expected free energy of the PLAY policy at the `[0.9, 0.1]` game
state belief is at most its pragmatic value: the epistemic term is a
negated expected KL divergence, hence nonpositive. -/
theorem efe_play_09_le :
    efePolicy ![9/10, 1/10] ![1, 0, 0] 1 ≤
      (1 - Real.exp 1) / (Real.exp 1 + 1) * (4/5) := by
  show efeStep (predB0 ![9/10, 1/10]) (predB1 1 ![1, 0, 0]) ≤ _
  rw [predB0_eval, predB1_start]
  simp [efeStep, pragmatic, epistemic, klGain, postGiven, qobs, qjoint,
    Aref, A0ref, A1ref, A2ref, Cref, C0ref, C1ref, C2ref, hrm0, hrm1, lrm0, lrm1,
    Fin.sum_univ_three, Fin.sum_univ_two]
  norm_num [slog_9_10, slog_1_10]
  simp only [show (1:ℝ) + Real.exp 1 = Real.exp 1 + 1 from add_comm 1 _]
  have hQP : (0:ℝ) < (Real.exp 1 + 1)⁻¹ * (9/10)
      + Real.exp 1 / (Real.exp 1 + 1) * (1/10) := by positivity
  have hQR : (0:ℝ) < Real.exp 1 / (Real.exp 1 + 1) * (9/10)
      + (Real.exp 1 + 1)⁻¹ * (1/10) := by positivity
  have heps : epsFloor = 1e-16 := rfl
  have a1 : slog ((Real.exp 1 + 1)⁻¹ * (9/10) /
      ((Real.exp 1 + 1)⁻¹ * (9/10) + Real.exp 1 / (Real.exp 1 + 1) * (1/10))) =
      Real.log ((Real.exp 1 + 1)⁻¹ * (9/10) /
      ((Real.exp 1 + 1)⁻¹ * (9/10) + Real.exp 1 / (Real.exp 1 + 1) * (1/10))) := by
    apply slog_eq_log
    rw [le_div_iff₀ hQP, heps]
    nlinarith [sigma0_ge_quarter, sigma0_le_one, sigma1_ge_half, sigma1_le_one]
  have a2 : slog (Real.exp 1 / (Real.exp 1 + 1) * (1/10) /
      ((Real.exp 1 + 1)⁻¹ * (9/10) + Real.exp 1 / (Real.exp 1 + 1) * (1/10))) =
      Real.log (Real.exp 1 / (Real.exp 1 + 1) * (1/10) /
      ((Real.exp 1 + 1)⁻¹ * (9/10) + Real.exp 1 / (Real.exp 1 + 1) * (1/10))) := by
    apply slog_eq_log
    rw [le_div_iff₀ hQP, heps]
    nlinarith [sigma0_ge_quarter, sigma0_le_one, sigma1_ge_half, sigma1_le_one]
  have a3 : slog (Real.exp 1 / (Real.exp 1 + 1) * (9/10) /
      (Real.exp 1 / (Real.exp 1 + 1) * (9/10) + (Real.exp 1 + 1)⁻¹ * (1/10))) =
      Real.log (Real.exp 1 / (Real.exp 1 + 1) * (9/10) /
      (Real.exp 1 / (Real.exp 1 + 1) * (9/10) + (Real.exp 1 + 1)⁻¹ * (1/10))) := by
    apply slog_eq_log
    rw [le_div_iff₀ hQR, heps]
    nlinarith [sigma0_ge_quarter, sigma0_le_one, sigma1_ge_half, sigma1_le_one]
  have a4 : slog ((Real.exp 1 + 1)⁻¹ * (1/10) /
      (Real.exp 1 / (Real.exp 1 + 1) * (9/10) + (Real.exp 1 + 1)⁻¹ * (1/10))) =
      Real.log ((Real.exp 1 + 1)⁻¹ * (1/10) /
      (Real.exp 1 / (Real.exp 1 + 1) * (9/10) + (Real.exp 1 + 1)⁻¹ * (1/10))) := by
    apply slog_eq_log
    rw [le_div_iff₀ hQR, heps]
    nlinarith [sigma0_ge_quarter, sigma0_le_one, sigma1_ge_half, sigma1_le_one]
  rw [a1, a2, a3, a4]
  have s1 : (Real.exp 1 + 1)⁻¹ * (9/10) /
      ((Real.exp 1 + 1)⁻¹ * (9/10) + Real.exp 1 / (Real.exp 1 + 1) * (1/10)) +
      Real.exp 1 / (Real.exp 1 + 1) * (1/10) /
      ((Real.exp 1 + 1)⁻¹ * (9/10) + Real.exp 1 / (Real.exp 1 + 1) * (1/10)) = 1 := by
    rw [div_add_div_same, div_self hQP.ne']
  have s2 : Real.exp 1 / (Real.exp 1 + 1) * (9/10) /
      (Real.exp 1 / (Real.exp 1 + 1) * (9/10) + (Real.exp 1 + 1)⁻¹ * (1/10)) +
      (Real.exp 1 + 1)⁻¹ * (1/10) /
      (Real.exp 1 / (Real.exp 1 + 1) * (9/10) + (Real.exp 1 + 1)⁻¹ * (1/10)) = 1 := by
    rw [div_add_div_same, div_self hQR.ne']
  have k1 := kl2_nonneg
    ((Real.exp 1 + 1)⁻¹ * (9/10) /
      ((Real.exp 1 + 1)⁻¹ * (9/10) + Real.exp 1 / (Real.exp 1 + 1) * (1/10)))
    (Real.exp 1 / (Real.exp 1 + 1) * (1/10) /
      ((Real.exp 1 + 1)⁻¹ * (9/10) + Real.exp 1 / (Real.exp 1 + 1) * (1/10)))
    (9/10) (1/10) (by positivity) (by positivity) (by norm_num) (by norm_num)
    s1 (by norm_num)
  have k2 := kl2_nonneg
    (Real.exp 1 / (Real.exp 1 + 1) * (9/10) /
      (Real.exp 1 / (Real.exp 1 + 1) * (9/10) + (Real.exp 1 + 1)⁻¹ * (1/10)))
    ((Real.exp 1 + 1)⁻¹ * (1/10) /
      (Real.exp 1 / (Real.exp 1 + 1) * (9/10) + (Real.exp 1 + 1)⁻¹ * (1/10)))
    (9/10) (1/10) (by positivity) (by positivity) (by norm_num) (by norm_num)
    s2 (by norm_num)
  have hprag : (Real.exp 1 + 1)⁻¹ * (9/10) + Real.exp 1 / (Real.exp 1 + 1) * (1/10)
      + (-((Real.exp 1 + 1)⁻¹ * (1/10)) + -(Real.exp 1 / (Real.exp 1 + 1) * (9/10)))
      = (1 - Real.exp 1) / (Real.exp 1 + 1) * (4/5) := by
    field_simp
    ring
  nlinarith [mul_nonneg hQP.le k1, mul_nonneg hQR.le k2, hprag]

/-! ## Entropy values of the beliefs used in the policy comparison -/

theorem entropy_uniform : entropyBelief ![1/2, 1/2] = Real.log 2 := by
  unfold entropyBelief
  rw [Fin.sum_univ_two]
  simp only [Matrix.cons_val_zero, Matrix.cons_val_one, Matrix.head_cons]
  rw [slog_half, show Real.log (1/2) = -Real.log 2 by rw [one_div, Real.log_inv]]
  ring

theorem entropy_certain : entropyBelief ![1, 0] = 0 := by
  unfold entropyBelief
  rw [Fin.sum_univ_two]
  simp [slog_one]

theorem entropy_09_pos : 0 < entropyBelief ![9/10, 1/10] := by
  unfold entropyBelief
  rw [Fin.sum_univ_two]
  simp only [Matrix.cons_val_zero, Matrix.cons_val_one, Matrix.head_cons]
  rw [slog_9_10, slog_1_10]
  have h1 : Real.log (9/10) < 0 := Real.log_neg (by norm_num) (by norm_num)
  have h2 : Real.log (1/10) < 0 := Real.log_neg (by norm_num) (by norm_num)
  nlinarith

/-! ## Numeric comparison of the two policies -/

theorem log4_eq : Real.log 4 = 2 * Real.log 2 := by
  rw [show (4:ℝ) = 2^2 by norm_num, Real.log_pow]
  push_cast
  ring

theorem log5_le : Real.log 5 ≤ 2 * Real.log 2 + 1/4 := by
  have h54 : Real.log (5/4) ≤ 1/4 := by
    have h := Real.log_le_sub_one_of_pos (show (0:ℝ) < 5/4 by norm_num)
    nlinarith
  have e : Real.log 5 = Real.log 4 + Real.log (5/4) := by
    rw [← Real.log_mul (by norm_num) (by norm_num)]
    norm_num
  rw [e, log4_eq] at *
  linarith

theorem log45_ge : -(1/4) ≤ Real.log (4/5) := by
  have h54 : Real.log (5/4) ≤ 1/4 := by
    have h := Real.log_le_sub_one_of_pos (show (0:ℝ) < 5/4 by norm_num)
    nlinarith
  rw [show (4:ℝ)/5 = ((5:ℝ)/4)⁻¹ by norm_num, Real.log_inv]
  linarith

theorem logE1_ge :
    2 * Real.log 2 - (4 / (Real.exp 1 + 1) - 1) ≤ Real.log (Real.exp 1 + 1) := by
  have h := Real.log_le_sub_one_of_pos
    (show (0:ℝ) < 4 / (Real.exp 1 + 1) by positivity)
  rw [Real.log_div (by norm_num) expE1_pos.ne'] at h
  rw [← log4_eq]
  linarith

theorem sigma0_le_269 : (Real.exp 1 + 1)⁻¹ ≤ 0.26895 := by
  rw [← one_div, div_le_iff₀ expE1_pos]
  nlinarith [Real.exp_one_gt_d9]

/-- At the uniform game state belief the SAMPLE policy has strictly lower
expected free energy than the PLAY policy. -/
theorem efe_uniform_lt :
    efePolicy ![1/2, 1/2] ![1, 0, 0] 2 < efePolicy ![1/2, 1/2] ![1, 0, 0] 1 := by
  rw [efe_sample_uniform, efe_play_uniform]
  have hl2 : Real.log (1/2) = -Real.log 2 := by rw [one_div, Real.log_inv]
  have hl15 : Real.log (1/5) = -Real.log 5 := by rw [one_div, Real.log_inv]
  have hfrac : Real.exp 1 / (Real.exp 1 + 1) = 1 - (Real.exp 1 + 1)⁻¹ := by
    field_simp
  have hinv4 : 4 / (Real.exp 1 + 1) = 4 * (Real.exp 1 + 1)⁻¹ := by
    rw [div_eq_mul_inv]
  have h1 := logE1_ge
  rw [hinv4] at h1
  rw [hl2, hl15, hfrac]
  nlinarith [log45_ge, log5_le, sigma0_le_269, Real.log_two_gt_d9, h1]

/-- At the certain game state belief the PLAY policy has strictly lower
expected free energy than the SAMPLE policy. -/
theorem efe_certain_lt :
    efePolicy ![1, 0] ![1, 0, 0] 1 < efePolicy ![1, 0] ![1, 0, 0] 2 := by
  rw [efe_play_certain, efe_sample_certain]
  apply div_neg_of_neg_of_pos _ expE1_pos
  nlinarith [Real.exp_one_gt_d9]

/-- At the `[0.9, 0.1]` game state belief (entropy still positive) the
PLAY policy already has strictly lower expected free energy than the
SAMPLE policy. -/
theorem efe_09_lt :
    efePolicy ![9/10, 1/10] ![1, 0, 0] 1 < efePolicy ![9/10, 1/10] ![1, 0, 0] 2 := by
  have h1 := efe_play_09_le
  have h2 : (1 - Real.exp 1) / (Real.exp 1 + 1) * (4/5) < -(1/3) := by
    rw [div_mul_eq_mul_div, div_lt_iff₀ expE1_pos]
    nlinarith [Real.exp_one_gt_d9]
  have c1 : Real.log (36/37) - Real.log (9/10) ≤ 3/37 := by
    have h := Real.log_le_sub_one_of_pos (show (0:ℝ) < (36/37)/(9/10) by norm_num)
    rw [Real.log_div (by norm_num) (by norm_num)] at h
    have e : ((36:ℝ)/37)/(9/10) - 1 = 3/37 := by norm_num
    linarith
  have c2 : Real.log (1/37) - Real.log (1/10) ≤ -(27/37) := by
    have h := Real.log_le_sub_one_of_pos (show (0:ℝ) < (1/37)/(1/10) by norm_num)
    rw [Real.log_div (by norm_num) (by norm_num)] at h
    have e : ((1:ℝ)/37)/(1/10) - 1 = -(27/37) := by norm_num
    linarith
  have c3 : Real.log (9/13) - Real.log (9/10) ≤ -(3/13) := by
    have h := Real.log_le_sub_one_of_pos (show (0:ℝ) < (9/13)/(9/10) by norm_num)
    rw [Real.log_div (by norm_num) (by norm_num)] at h
    have e : ((9:ℝ)/13)/(9/10) - 1 = -(3/13) := by norm_num
    linarith
  have c4 : Real.log (4/13) - Real.log (1/10) ≤ 27/13 := by
    have h := Real.log_le_sub_one_of_pos (show (0:ℝ) < (4/13)/(1/10) by norm_num)
    rw [Real.log_div (by norm_num) (by norm_num)] at h
    have e : ((4:ℝ)/13)/(1/10) - 1 = 27/13 := by norm_num
    linarith
  have h3 : -(1/3) < efePolicy ![9/10, 1/10] ![1, 0, 0] 2 := by
    rw [efe_sample_09]
    nlinarith [c1, c2, c3, c4]
  linarith

/-! ## Claim C3 -/

/-- Claim C3 (amended): the reference agent switches from
information-seeking to reward-seeking, but the switch happens before the
belief becomes near-certain.  At the maximally uncertain factor-1 belief
`[0.5, 0.5]` (positive entropy) the SAMPLE policy has strictly lower
expected free energy than the PLAY policy, and at the certain belief
`[1, 0]` (entropy zero) the PLAY policy has strictly lower expected free
energy than the SAMPLE policy. -/
theorem claim_C3_amended :
    (0 < entropyBelief ![1/2, 1/2] ∧
      efePolicy ![1/2, 1/2] ![1, 0, 0] 2 < efePolicy ![1/2, 1/2] ![1, 0, 0] 1) ∧
    (entropyBelief ![1, 0] = 0 ∧
      efePolicy ![1, 0] ![1, 0, 0] 1 < efePolicy ![1, 0] ![1, 0, 0] 2) :=
  ⟨⟨by rw [entropy_uniform]; exact Real.log_pos one_lt_two, efe_uniform_lt⟩,
   ⟨entropy_certain, efe_certain_lt⟩⟩

/-- Claim C3 counterexample: at the factor-1 belief `[0.9, 0.1]` the
entropy is strictly positive, yet the PLAY policy has strictly lower
expected free energy than the SAMPLE policy -- refuting the claim that
the SAMPLE policy is strictly preferred whenever the entropy is
positive. -/
theorem claim_C3_counterexample :
    0 < entropyBelief ![9/10, 1/10] ∧
    efePolicy ![9/10, 1/10] ![1, 0, 0] 1 < efePolicy ![9/10, 1/10] ![1, 0, 0] 2 :=
  ⟨entropy_09_pos, efe_09_lt⟩

/-! ## Claim C9 -/

/-- Claim C9: two-run determinism.  The run of an agent is a pure function
of its generative-model content, its observation sequence and the
injected random draws: two runs with equal inputs produce equal belief
and action traces (there is no hidden process-wide random state in the
model). -/
theorem claim_C9_determinism (gamma1 gamma2 : ℝ) (ag1 ag2 : AgentState)
    (tr1 tr2 : List (List ℕ × ℝ)) (hg : gamma1 = gamma2) (ha : ag1 = ag2)
    (ht : tr1 = tr2) :
    runAgent gamma1 ag1 tr1 = runAgent gamma2 ag2 tr2 := by
  subst hg
  subst ha
  subst ht
  rfl

/-- Claim C9 witness: a concrete two-step run replayed with the same seed
stream. -/
theorem claim_C9_determinism_witness :
    runAgent 16 ⟨Phase.AwaitingObservation, ![1/2, 1/2], ![1, 0, 0], none⟩
      [([2, 2, 0], 1/2), ([0, 2, 2], 1/3)] =
    runAgent 16 ⟨Phase.AwaitingObservation, ![1/2, 1/2], ![1, 0, 0], none⟩
      [([2, 2, 0], 1/2), ([0, 2, 2], 1/3)] :=
  claim_C9_determinism 16 16 _ _ _ _ rfl rfl rfl

end

end Pymdp
